import Mathlib

/-!
Shallow embedding of the JSON2Podcast application (src/app.py, with the
near-identical variant src/podcast_generator_app.py) and proofs about its
script loader, voice directory, audio generation pass, per-segment
regeneration, and finalization.

Modelling conventions:
* Audio buffers (pydub `AudioSegment`) are lists of samples; `duration` is
  the length, concatenation is list append, `silent d` is `d` zero samples.
  This reflects the pydub semantics the code relies on: durations add under
  concatenation and `silent(d)` has duration `d`.
* The remote text-to-speech call (`generate_audio`) is an oracle parameter
  `synth : String → String → VoiceSettings → Option Audio`; `none` models the
  call raising (network/decoding failure), `some a` models a successful call
  returning decoded audio.  Every invocation of the oracle is one network
  synthesis request; the generation pass records the requests it issues.
* Python dicts are ordered association lists with unique keys; insertion
  overwrites the binding of an existing key in place.
* JSON values parsed by `json.loads` are an inductive `Json`; `json.dumps`
  followed by `json.loads` is modelled as the identity on `Json` values
  (the documented round-trip behaviour of the Python `json` library).
-/

/-- An audio buffer: the pydub `AudioSegment`, as a list of samples. -/
abbrev Audio : Type := List Nat

/-- `AudioSegment.empty()`. -/
def Audio.empty : Audio := ([] : List Nat)

/-- `AudioSegment.silent(duration=d)`: `d` milliseconds of silence. -/
def Audio.silent (d : Nat) : Audio := List.replicate d 0

/-- Duration of a buffer in milliseconds. -/
def Audio.duration (a : Audio) : Nat := List.length a

/-- The `voice_settings` triple of `st.session_state.config`; floats are
modelled as rationals.  The pipeline only passes the triple through to the
synthesis call. -/
structure VoiceSettings where
  stability : ℚ
  similarity_boost : ℚ
  style : ℚ
deriving DecidableEq, Repr

/-- The value of one entry of `available_voices` as built by
`get_available_voices`: `{"voice_id": ..., "samples": ...}`. -/
structure VoiceInfo where
  voice_id : String
  samples : List String
deriving DecidableEq, Repr

/-- One voice object of the remote directory response
(`voices_data["voices"]`): a name, a `voice_id`, and an optional `samples`
field (`voice.get("samples", [])` defaults a missing field to `[]`). -/
structure RemoteVoice where
  name : String
  voice_id : String
  samples : Option (List String)
deriving DecidableEq, Repr

/-- Python dict lookup `d[k]` on an ordered association list: the first
binding of the key (keys are unique in every dict the code builds). -/
def dictLookup {α : Type} (d : List (String × α)) (k : String) : Option α :=
  match d with
  | [] => none
  | (k0, v0) :: rest => if k0 = k then some v0 else dictLookup rest k

/-- Python dict insertion `d[k] = v`: overwrite the binding of an existing
key in place, else append the new binding at the end. -/
def dictInsert {α : Type} (d : List (String × α)) (k : String) (v : α) :
    List (String × α) :=
  match d with
  | [] => [(k, v)]
  | (k0, v0) :: rest =>
    if k0 = k then (k, v) :: rest else (k0, v0) :: dictInsert rest k v

/-- `get_available_voices` (src/app.py lines 19-31): one directory request.
On status 200 build the name-keyed dict by the dict comprehension
`{voice["name"]: {"voice_id": ..., "samples": voice.get("samples", [])} for voice in voices_data["voices"]}`
(iteration order is response order, so a duplicate name keeps the voice
visited last); on any other status report the error (`st.error`, the Bool
component is `false`) and return the empty dict. -/
def get_available_voices (status_code : Nat) (voices : List RemoteVoice) :
    List (String × VoiceInfo) × Bool :=
  if status_code = 200 then
    (voices.foldl
      (fun d v => dictInsert d v.name ⟨v.voice_id, v.samples.getD []⟩) [],
     true)
  else
    ([], false)

/-- The label component of an entry of `st.session_state.audio_segments`:
the strings `"Intro"`, `"Outro"`, and `"Line n"` (so that
`int(label.split()[1])` recovers `n` from a line label). -/
inductive Label where
  | intro
  | outro
  | line (n : Nat)
deriving DecidableEq, Repr

/-- One entry of `st.session_state.audio_segments`: a `(label, audio)` pair. -/
abbrev Segment : Type := Label × Audio

/-- One dialogue line of the loaded script, as the pipeline reads it:
`line['speaker']` and `line['text']`. -/
structure DialogueLine where
  speaker : String
  text : String
deriving DecidableEq, Repr

/-- `st.session_state.config` (src/app.py lines 47-60), restricted to the
fields the pipeline reads.  `podcasters` maps speaker name to voice name.
(The variant src/podcast_generator_app.py has no outro fields; it behaves
as this model with `outro_text = ""`.) -/
structure Config where
  intro_text : String
  intro_voice : String
  outro_text : String
  outro_voice : String
  intro_music : Option Audio
  podcasters : List (String × String)
  voice_settings : VoiceSettings
deriving DecidableEq, Repr

/-- The session state the pipeline touches: the script, the configuration,
the voice directory, and the generated segments. -/
structure Session where
  script : List DialogueLine
  config : Config
  available_voices : List (String × VoiceInfo)
  audio_segments : List Segment
deriving DecidableEq, Repr

/-- The synthesis oracle: `generate_audio(text, voice_id, voice_settings)`.
`none` models the remote call raising; `some a` a successful decoded
response. -/
def Synth : Type := String → String → VoiceSettings → Option Audio

/-- One network synthesis request, as issued by `generate_audio`. -/
structure SynthCall where
  text : String
  voice_id : String
  settings : VoiceSettings
deriving DecidableEq, Repr

/-- Errors a generation pass can raise: a Python `KeyError` from a dict
lookup (`config['podcasters'][speaker]` or `available_voices[name]`), or an
exception from the synthesis call. -/
inductive PipelineError where
  | keyError (key : String)
  | synthesisError
deriving DecidableEq, Repr

/-- Accumulator of a generation pass: the segments appended to
`st.session_state.audio_segments` so far and the synthesis network requests
issued so far, both in order. -/
structure GenAcc where
  segments : List Segment
  calls : List SynthCall
deriving DecidableEq, Repr

/-- Outcome of a generation pass: the session after the handler returns (or
after the exception propagates), the synthesis requests issued, and the
error, if any. -/
structure GenResult where
  session : Session
  calls : List SynthCall
  error : Option PipelineError
deriving DecidableEq, Repr

/-- The intro block (src/app.py lines 270-276) and, with the outro label and
texts, the outro block (lines 290-296): if the text is non-empty, look up the
voice (`KeyError` if absent), issue the synthesis request, and append the
labelled segment. -/
def genSpecial (voices : List (String × VoiceInfo)) (settings : VoiceSettings)
    (synth : Synth) (text voiceName : String) (lab : Label) (acc : GenAcc) :
    GenAcc × Option PipelineError :=
  if text = "" then (acc, none)
  else
    match dictLookup voices voiceName with
    | none => (acc, some (.keyError voiceName))
    | some vd =>
      match synth text vd.voice_id settings with
      | none =>
        ({ acc with calls := acc.calls ++ [⟨text, vd.voice_id, settings⟩] },
         some .synthesisError)
      | some a =>
        (⟨acc.segments ++ [(lab, a)],
          acc.calls ++ [⟨text, vd.voice_id, settings⟩]⟩, none)

/-- The dialogue loop (src/app.py lines 279-287): for the line at 0-based
index `i`, look up `config['podcasters'][line['speaker']]` (`KeyError` if the
speaker is unassigned), then `available_voices[voice_name]` (`KeyError`),
issue the synthesis request, and append the segment labelled `Line (i+1)`.
The first exception aborts the loop; segments already appended remain. -/
def genLines (voices : List (String × VoiceInfo))
    (podcasters : List (String × String)) (settings : VoiceSettings)
    (synth : Synth) : Nat → List DialogueLine → GenAcc →
    GenAcc × Option PipelineError
  | _, [], acc => (acc, none)
  | i, line :: rest, acc =>
    match dictLookup podcasters line.speaker with
    | none => (acc, some (.keyError line.speaker))
    | some voiceName =>
      match dictLookup voices voiceName with
      | none => (acc, some (.keyError voiceName))
      | some vd =>
        match synth line.text vd.voice_id settings with
        | none =>
          ({ acc with
             calls := acc.calls ++ [⟨line.text, vd.voice_id, settings⟩] },
           some .synthesisError)
        | some a =>
          genLines voices podcasters settings synth (i + 1) rest
            ⟨acc.segments ++ [(.line (i + 1), a)],
             acc.calls ++ [⟨line.text, vd.voice_id, settings⟩]⟩

/-- The "Generate All Audio" handler (src/app.py step_5, lines 266-296; the
variant src/podcast_generator_app.py step_4, lines 158-177, is the same with
no outro block): reset `audio_segments` to `[]`, then the intro block, the
dialogue loop, and the outro block, stopping at the first exception.
Whatever was appended before the exception stays in the session. -/
def generateAll (σ : Session) (synth : Synth) : GenResult :=
  match genSpecial σ.available_voices σ.config.voice_settings synth
      σ.config.intro_text σ.config.intro_voice .intro ⟨[], []⟩ with
  | (acc, some e) =>
    ⟨{ σ with audio_segments := acc.segments }, acc.calls, some e⟩
  | (acc, none) =>
    match genLines σ.available_voices σ.config.podcasters
        σ.config.voice_settings synth 0 σ.script acc with
    | (acc2, some e) =>
      ⟨{ σ with audio_segments := acc2.segments }, acc2.calls, some e⟩
    | (acc2, none) =>
      match genSpecial σ.available_voices σ.config.voice_settings synth
          σ.config.outro_text σ.config.outro_voice .outro acc2 with
      | (acc3, e) =>
        ⟨{ σ with audio_segments := acc3.segments }, acc3.calls, e⟩

/-- Python list indexing: `xs[i]` with a possibly negative index; `none`
models an `IndexError`. -/
def pyIdx (len : Nat) (i : Int) : Option Nat :=
  let j : Int := if i < 0 then i + len else i
  if 0 ≤ j ∧ j < (len : Int) then some j.toNat else none

/-- Errors a regeneration can raise: `IndexError` from `script[line_index]`,
`KeyError` from a dict lookup, or an exception from the synthesis call. -/
inductive RegenError where
  | indexError
  | keyError (key : String)
  | synthesisError
deriving DecidableEq, Repr

/-- The "Regenerate" handler for the segment at position `i` of
`audio_segments` (src/app.py lines 314-340; the variant
src/podcast_generator_app.py lines 192-209 lacks the Outro branch).  The
branch is chosen by the segment's label.  For a `Line n` label the code
computes `line_index = int(label.split()[1]) - 1` and reads
`script[line_index]['speaker']` (Python indexing, so negative values wrap),
looks up the speaker's voice and the voice's id, and calls
`generate_audio(new_text, ...)`.  Only after the synthesis call returns does
it write the new text into the script (resp. `config['intro_text']` /
`config['outro_text']`) and replace `audio_segments[i] = (label, new_audio)`;
an exception leaves the session exactly as it was.  The returned session is
the state when the handler ends, normally or by exception. -/
def regenerate (σ : Session) (i : Nat) (newText : String) (synth : Synth) :
    Session × Option RegenError :=
  match σ.audio_segments[i]? with
  | none => (σ, some .indexError)
  | some (lab, _) =>
    match lab with
    | .intro =>
      match dictLookup σ.available_voices σ.config.intro_voice with
      | none => (σ, some (.keyError σ.config.intro_voice))
      | some vd =>
        match synth newText vd.voice_id σ.config.voice_settings with
        | none => (σ, some .synthesisError)
        | some a =>
          ({ σ with
             config := { σ.config with intro_text := newText },
             audio_segments := σ.audio_segments.set i (.intro, a) }, none)
    | .outro =>
      match dictLookup σ.available_voices σ.config.outro_voice with
      | none => (σ, some (.keyError σ.config.outro_voice))
      | some vd =>
        match synth newText vd.voice_id σ.config.voice_settings with
        | none => (σ, some .synthesisError)
        | some a =>
          ({ σ with
             config := { σ.config with outro_text := newText },
             audio_segments := σ.audio_segments.set i (.outro, a) }, none)
    | .line n =>
      match pyIdx σ.script.length ((n : Int) - 1) with
      | none => (σ, some .indexError)
      | some j =>
        match σ.script[j]? with
        | none => (σ, some .indexError)
        | some line =>
          match dictLookup σ.config.podcasters line.speaker with
          | none => (σ, some (.keyError line.speaker))
          | some voiceName =>
            match dictLookup σ.available_voices voiceName with
            | none => (σ, some (.keyError voiceName))
            | some vd =>
              match synth newText vd.voice_id σ.config.voice_settings with
              | none => (σ, some .synthesisError)
              | some a =>
                ({ σ with
                   script := σ.script.set j { line with text := newText },
                   audio_segments :=
                     σ.audio_segments.set i (.line n, a) }, none)

/-- The "Finalize Podcast" handler (src/app.py step_6, lines 346-365;
identically src/podcast_generator_app.py step_5, lines 215-234): start from
`AudioSegment.empty()`, prepend the decoded intro music when present, then
append every segment's buffer followed by `AudioSegment.silent(duration=500)`
— after the last segment too. -/
def finalize (segments : List Segment) (introMusic : Option Audio) : Audio :=
  segments.foldl (fun acc s => acc ++ s.2 ++ Audio.silent 500)
    (match introMusic with
     | some m => Audio.empty ++ m
     | none => Audio.empty)

/-- A JSON value as produced by `json.loads`: objects are ordered field
lists with unique keys (Python dicts). -/
inductive Json where
  | str (s : String)
  | num (n : Int)
  | bool (b : Bool)
  | null
  | arr (elems : List Json)
  | obj (fields : List (String × Json))

/-- The elements of a JSON array (`[]` for non-arrays; only applied to
values known to be arrays). -/
def Json.items (j : Json) : List Json :=
  match j with
  | .arr xs => xs
  | _ => []

/-- The membership test the loader runs on one item:
`isinstance(item, dict) and 'speaker' in item and 'text' in item`.
Note: it only requires the two keys to be present; extra keys are allowed
and the values may be of any JSON type. -/
def isDialogueDict (j : Json) : Bool :=
  match j with
  | .obj fields =>
    (fields.any fun p => p.1 == "speaker") && (fields.any fun p => p.1 == "text")
  | _ => false

/-- The loader's shape check (src/app.py lines 170 and 190, identically
src/podcast_generator_app.py line 100):
`isinstance(script_data, list) and all(... for item in script_data)`. -/
def validScriptJson (j : Json) : Bool :=
  match j with
  | .arr items => items.all isDialogueDict
  | _ => false

/-- The "Load Script" handler (src/app.py step_2, lines 167-177; identically
the upload branch, lines 186-197, and src/podcast_generator_app.py step_1,
lines 97-107).  `input = none` models a `json.JSONDecodeError` from
`json.loads`.  On a parse failure or a failed shape check the handler shows
an error (`false`) and leaves the session script as it was; on success it
replaces the session script with the parsed list (`true`). -/
def loadScript (current : List Json) (input : Option Json) :
    List Json × Bool :=
  match input with
  | none => (current, false)
  | some j =>
    if validScriptJson j then (j.items, true) else (current, false)

/-- The "Export Script" handler (src/app.py lines 180-184) serializes the
session script with `json.dumps(st.session_state.script)`.  With
`json.loads ∘ json.dumps` modelled as the identity on JSON values, the value
a re-import parses is the JSON array of the session script's items. -/
def exportScript (script : List Json) : Json := Json.arr script

/-- Whether a JSON value is a string. -/
def Json.isStr (j : Json) : Bool :=
  match j with
  | .str _ => true
  | _ => false

/-- Definition following the spec's words, for comparison with the loader's
actual check `isDialogueDict`: an object "with exactly two required string
fields, `speaker` and `text`" — exactly two fields, named `speaker` and
`text`, both holding strings. -/
def strictDialogueShape (j : Json) : Bool :=
  match j with
  | .obj fields =>
    fields.length == 2 &&
    (fields.any fun p => p.1 == "speaker" && p.2.isStr) &&
    (fields.any fun p => p.1 == "text" && p.2.isStr)
  | _ => false

/-- Definition following the spec's words: the strict script shape — a JSON
list of objects each of `strictDialogueShape`. -/
def strictScriptShape (j : Json) : Bool :=
  match j with
  | .arr items => items.all strictDialogueShape
  | _ => false

/-! Concrete inputs used to exercise the theorems below. -/

/-- The default `voice_settings` of src/app.py (`0.5`, `0.8`, `0.1`). -/
def settings0 : VoiceSettings := ⟨1/2, 4/5, 1/10⟩

/-- A small voice directory. -/
def voices0 : List (String × VoiceInfo) :=
  [("Rachel", ⟨"r1", []⟩), ("Josh", ⟨"j1", []⟩)]

/-- An oracle whose synthesis calls all succeed. -/
def synthOk : Synth := fun t v _ => some [t.length, v.length]

/-- An oracle whose synthesis calls all fail. -/
def synthNone : Synth := fun _ _ _ => none

/-- An oracle that fails exactly on the text "Yo". -/
def synthFailYo : Synth := fun t _ _ => if t = "Yo" then none else some [7]

/-- A session whose script has one line by the unassigned speaker "Bob",
with a non-empty intro. -/
def sessionBobOnly : Session :=
  { script := [⟨"Bob", "Hello there"⟩],
    config := { intro_text := "Welcome", intro_voice := "Rachel",
                outro_text := "", outro_voice := "",
                intro_music := none, podcasters := [],
                voice_settings := settings0 },
    available_voices := voices0,
    audio_segments := [] }

/-- A session with two script lines where only the first speaker, "Alex",
has a voice assignment. -/
def sessionAlexBob : Session :=
  { script := [⟨"Alex", "Hello"⟩, ⟨"Bob", "Yo"⟩],
    config := { intro_text := "Welcome", intro_voice := "Rachel",
                outro_text := "", outro_voice := "",
                intro_music := none,
                podcasters := [("Alex", "Josh")],
                voice_settings := settings0 },
    available_voices := voices0,
    audio_segments := [] }

/-- A fully configured session with two script lines, both speakers
assigned, a non-empty intro, and a non-empty outro. -/
def sessionFull : Session :=
  { script := [⟨"Alex", "Hello"⟩, ⟨"Bob", "Yo"⟩],
    config := { intro_text := "Welcome", intro_voice := "Rachel",
                outro_text := "Bye", outro_voice := "Josh",
                intro_music := some [1, 2, 3],
                podcasters := [("Alex", "Josh"), ("Bob", "Rachel")],
                voice_settings := settings0 },
    available_voices := voices0,
    audio_segments := [] }

/-- `sessionFull` after a successful generation pass: three segments
(among them `Line 2`) are present. -/
def sessionGenerated : Session :=
  { sessionFull with
    audio_segments :=
      [(.intro, [10]), (.line 1, [11]), (.line 2, [12]), (.outro, [13])] }

/-- A script item carrying the two required keys plus an extra field. -/
def extraFieldItem : Json :=
  .obj [("speaker", .str "Alex"), ("text", .str "Hi"), ("mood", .str "happy")]

/-- A one-item script whose item has an extra field. -/
def extraFieldScript : Json := .arr [extraFieldItem]

/-- A script item of the strict two-field shape. -/
def goodItem : Json := .obj [("speaker", .str "Alex"), ("text", .str "Hi")]

/-- A remote directory response with a duplicated voice name. -/
def remoteDup : List RemoteVoice :=
  [⟨"Ann", "id1", none⟩, ⟨"Ben", "id3", some ["s3"]⟩, ⟨"Ann", "id2", some ["s1"]⟩]

/-! Helper lemmas. -/

theorem finalize_foldl_duration (l : List Segment) (base : Audio) :
    (l.foldl (fun acc s => acc ++ s.2 ++ Audio.silent 500) base).duration =
      base.duration + ((l.map fun s => s.2.duration).sum + 500 * l.length) := by
  induction l generalizing base with
  | nil => simp
  | cons s l ih =>
    rw [List.foldl_cons, ih]
    simp only [Audio.duration, Audio.silent, List.length_append,
      List.length_replicate, List.map_cons, List.sum_cons, List.length_cons]
    omega

theorem dictLookup_dictInsert {α : Type} (d : List (String × α))
    (k k' : String) (v : α) :
    dictLookup (dictInsert d k v) k' =
      if k = k' then some v else dictLookup d k' := by
  induction d with
  | nil => simp [dictInsert, dictLookup]
  | cons p rest ih =>
    obtain ⟨k0, v0⟩ := p
    by_cases h0 : k0 = k
    · subst h0
      by_cases h1 : k0 = k'
      · subst h1
        simp [dictInsert, dictLookup]
      · simp [dictInsert, dictLookup, h1]
    · by_cases h1 : k0 = k'
      · subst h1
        simp only [dictInsert, if_neg h0, dictLookup, eq_self_iff_true, if_true]
        rw [if_neg (fun h : k = k0 => h0 h.symm)]
      · simp [dictInsert, dictLookup, h0, h1, ih]

theorem dictLookup_foldl_insert (vs : List RemoteVoice)
    (d : List (String × VoiceInfo)) (name : String) :
    dictLookup
      (vs.foldl
        (fun d v => dictInsert d v.name ⟨v.voice_id, v.samples.getD []⟩) d)
      name =
    ((vs.reverse.find? fun v => v.name == name).map
      fun v => (⟨v.voice_id, v.samples.getD []⟩ : VoiceInfo)).or
      (dictLookup d name) := by
  induction vs generalizing d with
  | nil => simp
  | cons v vs ih =>
    simp only [List.foldl_cons, ih, List.reverse_cons, List.find?_append]
    cases hf : vs.reverse.find? (fun v => v.name == name) with
    | some w => simp
    | none =>
      by_cases hv : v.name = name
      · have hb : (v.name == name) = true := beq_iff_eq.mpr hv
        simp [List.find?, hb, dictLookup_dictInsert, hv]
      · have hb : (v.name == name) = false := beq_eq_false_iff_ne.mpr hv
        simp [List.find?, hb, dictLookup_dictInsert, hv]

/-- Claim C9: `get_available_voices` keys the result by voice name with
last-one-wins on duplicate names (the entry of the voice visited last in
response order is kept), and a non-success (non-200) response yields the
empty mapping together with an error report, never partial data. -/
theorem get_available_voices_spec (status_code : Nat)
    (voices : List RemoteVoice) (name : String) :
    (status_code ≠ 200 → get_available_voices status_code voices = ([], false)) ∧
    dictLookup (get_available_voices 200 voices).1 name =
      ((voices.reverse.find? fun v => v.name == name).map
        fun v => (⟨v.voice_id, v.samples.getD []⟩ : VoiceInfo)) := by
  constructor
  · intro h; simp [get_available_voices, h]
  · simp [get_available_voices, dictLookup_foldl_insert, dictLookup]

/-- Witness for C9: on a 404 directory response the mapping is empty and
the error reported; on a 200 response carrying two voices both named "Ann",
the one visited last ("id2") is the entry kept. -/
theorem get_available_voices_spec_witness :
    get_available_voices 404 remoteDup = ([], false) ∧
    dictLookup (get_available_voices 200 remoteDup).1 "Ann" =
      some ⟨"id2", ["s1"]⟩ := by
  constructor
  · exact (get_available_voices_spec 404 remoteDup "Ann").1 (by decide)
  · rw [(get_available_voices_spec 200 remoteDup "Ann").2]; rfl

/-- Claim C3: `finalize` produces a buffer whose total duration is the sum
of the segment durations, plus 500 ms for every segment (the silence is
appended after the last segment too), plus the intro-music duration when
intro music is present; and, being a pure function of the segment list and
intro music, two calls on the same state return the same buffer. -/
theorem finalize_total_duration (segments : List Segment)
    (introMusic : Option Audio) :
    (finalize segments introMusic).duration =
      (segments.map fun s => s.2.duration).sum + 500 * segments.length +
        (introMusic.map Audio.duration).getD 0 ∧
    finalize segments introMusic = finalize segments introMusic := by
  refine ⟨?_, rfl⟩
  cases introMusic with
  | none =>
    simp only [finalize]
    rw [finalize_foldl_duration]
    simp [Audio.empty, Audio.duration]
  | some m =>
    simp only [finalize]
    rw [finalize_foldl_duration]
    simp only [Audio.empty, Audio.duration, List.nil_append,
      Option.map_some', Option.getD_some]
    omega

/-- Claim C7: for every loaded script (one the loader previously accepted),
exporting it and re-importing the exported JSON accepts it again and yields
the identical ordered list of items — so the identical ordered sequence of
`{speaker, text}` pairs, with no field added or removed. -/
theorem export_import_roundtrip (cur0 cur : List Json) (j0 : Json)
    (script : List Json)
    (h : loadScript cur0 (some j0) = (script, true)) :
    loadScript cur (some (exportScript script)) = (script, true) := by
  simp only [loadScript] at h ⊢
  by_cases hv : validScriptJson j0
  · rw [if_pos hv] at h
    have hs : script = j0.items := by
      have := congrArg Prod.fst h
      exact this.symm
    subst hs
    cases j0 with
    | arr xs => simpa [exportScript, Json.items, validScriptJson] using hv
    | str s => simp [validScriptJson] at hv
    | num n => simp [validScriptJson] at hv
    | bool b => simp [validScriptJson] at hv
    | null => simp [validScriptJson] at hv
    | obj fs => simp [validScriptJson] at hv
  · rw [if_neg hv] at h
    have := congrArg Prod.snd h
    simp at this

/-- Witness for C7: a loaded two-item script (one item carrying an extra
field) survives the export/import cycle unchanged. -/
theorem export_import_roundtrip_witness :
    loadScript [] (some (exportScript [goodItem, extraFieldItem])) =
      ([goodItem, extraFieldItem], true) :=
  export_import_roundtrip [goodItem] []
    (Json.arr [goodItem, extraFieldItem]) [goodItem, extraFieldItem] rfl

/-- Counterexample to claim C8: the loader is claimed to accept exactly the
strict two-string-field shape, but it accepts a script whose item carries an
extra third field (and so does not have the strict shape). -/
theorem loader_accepts_nonstrict_shape :
    (loadScript [] (some extraFieldScript)).2 = true ∧
    strictScriptShape extraFieldScript = false ∧
    (loadScript [] (some extraFieldScript)).1 = [extraFieldItem] :=
  ⟨rfl, rfl, rfl⟩

/-- Claim C8 (amended): the loader accepts an input as the session script
iff it parses as a JSON list of objects each merely containing the keys
`speaker` and `text` (values of any JSON type; extra fields permitted); on
a parse failure or a failed shape check it reports an error and leaves the
session script unchanged, and on success the session script becomes exactly
the parsed list. -/
theorem loadScript_accepts_iff (cur : List Json) (inp : Option Json) :
    (inp = none → loadScript cur inp = (cur, false)) ∧
    (∀ j, inp = some j → validScriptJson j = true →
      loadScript cur inp = (j.items, true)) ∧
    (∀ j, inp = some j → validScriptJson j = false →
      loadScript cur inp = (cur, false)) := by
  refine ⟨?_, ?_, ?_⟩
  · intro h; subst h; rfl
  · intro j h hv; subst h; simp [loadScript, hv]
  · intro j h hv; subst h; simp [loadScript, hv]

/-- Witness for C8 (amended): a non-list input is rejected leaving the
session script unchanged, and the extra-field script is accepted and
installed as the session script. -/
theorem loadScript_accepts_iff_witness :
    loadScript [goodItem] (some (Json.num 3)) = ([goodItem], false) ∧
    loadScript [] (some extraFieldScript) = ([extraFieldItem], true) :=
  ⟨(loadScript_accepts_iff [goodItem] (some (Json.num 3))).2.2
      (Json.num 3) rfl rfl,
   (loadScript_accepts_iff [] (some extraFieldScript)).2.1
      extraFieldScript rfl rfl⟩

/-- Claim C5: if the regeneration of the segment at a valid index fails with
a synthesis error, the session — in particular the prior segment buffer at
that index and the prior source text — is exactly as it was before the call:
the code only mutates state after the synthesis call has returned. -/
theorem regenerate_failure_no_mutation (σ : Session) (i : Nat)
    (newText : String) (synth : Synth) (σ' : Session)
    (h : regenerate σ i newText synth = (σ', some RegenError.synthesisError)) :
    σ' = σ := by
  unfold regenerate at h
  repeat' split at h
  all_goals simp_all

/-- Witness for C5: a failing synthesis call on the `Line 2` segment of a
generated session leaves the session untouched. -/
theorem regenerate_failure_no_mutation_witness :
    (regenerate sessionGenerated 2 "New line" synthNone).1 =
      sessionGenerated :=
  regenerate_failure_no_mutation sessionGenerated 2 "New line" synthNone
    (regenerate sessionGenerated 2 "New line" synthNone).1 rfl

theorem genSpecial_empty_text (v : List (String × VoiceInfo))
    (s : VoiceSettings) (f : Synth) (n : String) (lab : Label) (acc : GenAcc) :
    genSpecial v s f "" n lab acc = (acc, none) := by
  simp [genSpecial]

theorem genSpecial_success_segments {v : List (String × VoiceInfo)}
    {s : VoiceSettings} {f : Synth} {text n : String} {lab : Label}
    {acc acc' : GenAcc} (h : genSpecial v s f text n lab acc = (acc', none)) :
    acc'.segments.map Prod.fst =
      acc.segments.map Prod.fst ++ (if text = "" then [] else [lab]) := by
  unfold genSpecial at h
  by_cases ht : text = ""
  · rw [if_pos ht] at h
    obtain ⟨rfl, -⟩ := Prod.mk.injEq .. ▸ h
    simp [ht]
  · rw [if_neg ht] at h
    rcases hv : dictLookup v n with - | vd
    · simp only [hv] at h; simp at h
    · simp only [hv] at h
      rcases ha : f text vd.voice_id s with - | a
      · simp only [ha] at h; simp at h
      · simp only [ha] at h
        obtain ⟨rfl, -⟩ := Prod.mk.injEq .. ▸ h
        simp [ht]

theorem genLines_success_labels (v : List (String × VoiceInfo))
    (p : List (String × String)) (s : VoiceSettings) (f : Synth)
    (l : List DialogueLine) : ∀ (i : Nat) (acc acc' : GenAcc),
    genLines v p s f i l acc = (acc', none) →
    acc'.segments.map Prod.fst =
      acc.segments.map Prod.fst ++ (List.range' (i + 1) l.length).map Label.line := by
  induction l with
  | nil =>
    intro i acc acc' h
    unfold genLines at h
    obtain ⟨rfl, -⟩ := Prod.mk.injEq .. ▸ h
    simp
  | cons line rest ih =>
    intro i acc acc' h
    unfold genLines at h
    rcases h1 : dictLookup p line.speaker with - | vn
    · simp only [h1] at h; simp at h
    · simp only [h1] at h
      rcases h2 : dictLookup v vn with - | vd
      · simp only [h2] at h; simp at h
      · simp only [h2] at h
        rcases h3 : f line.text vd.voice_id s with - | a
        · simp only [h3] at h; simp at h
        · simp only [h3] at h
          rw [ih (i + 1) _ acc' h]
          simp [List.range'_succ]

theorem genLines_append (v : List (String × VoiceInfo))
    (p : List (String × String)) (s : VoiceSettings) (f : Synth)
    (l₁ l₂ : List DialogueLine) : ∀ (i : Nat) (acc : GenAcc),
    genLines v p s f i (l₁ ++ l₂) acc =
      match genLines v p s f i l₁ acc with
      | (acc1, some e) => (acc1, some e)
      | (acc1, none) => genLines v p s f (i + l₁.length) l₂ acc1 := by
  induction l₁ with
  | nil =>
    intro i acc
    simp [genLines]
  | cons line rest ih =>
    intro i acc
    rcases h1 : dictLookup p line.speaker with - | vn
    · simp only [List.cons_append, genLines, h1]
    · rcases h2 : dictLookup v vn with - | vd
      · simp only [List.cons_append, genLines, h1, h2]
      · rcases h3 : f line.text vd.voice_id s with - | a
        · simp only [List.cons_append, genLines, h1, h2, h3]
        · simp only [List.cons_append, genLines, h1, h2, h3, List.append_eq]
          rw [ih]
          rcases hr : genLines v p s f (i + 1) rest
              ⟨acc.segments ++ [(.line (i + 1), a)],
               acc.calls ++ [⟨line.text, vd.voice_id, s⟩]⟩ with ⟨acc3, e3⟩
          cases e3 <;> simp [Nat.add_comm, Nat.add_assoc, Nat.add_left_comm]

theorem generateAll_success_inv (σ : Session) (synth : Synth)
    (h : (generateAll σ synth).error = none) :
    ∃ acc₀ acc₁ acc₂,
      genSpecial σ.available_voices σ.config.voice_settings synth
        σ.config.intro_text σ.config.intro_voice .intro ⟨[], []⟩ =
          (acc₀, none) ∧
      genLines σ.available_voices σ.config.podcasters
        σ.config.voice_settings synth 0 σ.script acc₀ = (acc₁, none) ∧
      genSpecial σ.available_voices σ.config.voice_settings synth
        σ.config.outro_text σ.config.outro_voice .outro acc₁ =
          (acc₂, none) ∧
      generateAll σ synth =
        ⟨{ σ with audio_segments := acc₂.segments }, acc₂.calls, none⟩ := by
  unfold generateAll at h
  rcases h0 : genSpecial σ.available_voices σ.config.voice_settings synth
      σ.config.intro_text σ.config.intro_voice .intro ⟨[], []⟩ with ⟨acc0, e0⟩
  cases e0 with
  | some e => simp only [h0] at h; simp at h
  | none =>
    simp only [h0] at h
    rcases h1 : genLines σ.available_voices σ.config.podcasters
        σ.config.voice_settings synth 0 σ.script acc0 with ⟨acc1, e1⟩
    cases e1 with
    | some e => simp only [h1] at h; simp at h
    | none =>
      simp only [h1] at h
      rcases h2 : genSpecial σ.available_voices σ.config.voice_settings synth
          σ.config.outro_text σ.config.outro_voice .outro acc1 with ⟨acc2, e2⟩
      cases e2 with
      | some e => simp only [h2] at h; simp at h
      | none =>
        refine ⟨acc0, acc1, acc2, rfl, h1, h2, ?_⟩
        simp only [generateAll, h0, h1, h2]

/-- Claim C2: when a "Generate All Audio" pass succeeds on a script of N
lines, the segment label list is exactly: an `Intro` label iff the intro
text is non-empty, then the labels `Line 1` .. `Line N` in script order —
independent of speaker identity — then an `Outro` label iff the outro text
is non-empty. -/
theorem generateAll_label_order (σ : Session) (synth : Synth)
    (h : (generateAll σ synth).error = none) :
    (generateAll σ synth).session.audio_segments.map Prod.fst =
      (if σ.config.intro_text = "" then [] else [Label.intro]) ++
      (List.range' 1 σ.script.length).map Label.line ++
      (if σ.config.outro_text = "" then [] else [Label.outro]) := by
  obtain ⟨acc0, acc1, acc2, h0, h1, h2, hEq⟩ :=
    generateAll_success_inv σ synth h
  rw [hEq]
  dsimp only
  rw [genSpecial_success_segments h2,
      genLines_success_labels _ _ _ _ _ 0 _ _ h1,
      genSpecial_success_segments h0]
  simp

/-- Witness for C2: the successful pass on `sessionFull` (two lines, intro
and outro both configured) yields labels Intro, Line 1, Line 2, Outro. -/
theorem generateAll_label_order_witness :
    (generateAll sessionFull synthOk).session.audio_segments.map Prod.fst =
      (if sessionFull.config.intro_text = "" then [] else [Label.intro]) ++
      (List.range' 1 sessionFull.script.length).map Label.line ++
      (if sessionFull.config.outro_text = "" then [] else [Label.outro]) :=
  generateAll_label_order sessionFull synthOk rfl

/-- Claim C10: the "Generate All Audio" handler resets the segment list to
empty before anything else, so its outcome is independent of previously
generated segments; consequently, when the intro synthesis of a re-run
fails (a failure before any segment of the new pass is produced), the
segment list afterwards is empty, whatever an earlier pass had left. -/
theorem generateAll_resets_segments (σ : Session) (prior : List Segment)
    (synth : Synth) :
    generateAll { σ with audio_segments := prior } synth =
      generateAll σ synth ∧
    (∀ vd : VoiceInfo, σ.config.intro_text ≠ "" →
      dictLookup σ.available_voices σ.config.intro_voice = some vd →
      synth σ.config.intro_text vd.voice_id σ.config.voice_settings = none →
      (generateAll { σ with audio_segments := prior }
        synth).session.audio_segments = []) := by
  constructor
  · rfl
  · intro vd ht hv hf
    simp only [generateAll, genSpecial, if_neg ht, hv, hf]

/-- Witness for C10: with one segment left over from an earlier pass, a
re-run whose intro synthesis fails leaves the segment list empty. -/
theorem generateAll_resets_segments_witness :
    generateAll { sessionBobOnly with audio_segments := [(Label.intro, [9])] }
        synthNone =
      generateAll sessionBobOnly synthNone ∧
    (generateAll { sessionBobOnly with audio_segments := [(Label.intro, [9])] }
        synthNone).session.audio_segments = [] :=
  ⟨(generateAll_resets_segments sessionBobOnly [(Label.intro, [9])]
      synthNone).1,
   (generateAll_resets_segments sessionBobOnly [(Label.intro, [9])]
      synthNone).2 ⟨"r1", []⟩ (by decide) rfl rfl⟩

theorem generateAll_take_inv (σ : Session) (synth : Synth) (k : Nat)
    (hk : k ≤ σ.script.length)
    (hpre : (generateAll { σ with
        script := σ.script.take k,
        config := { σ.config with outro_text := "" } } synth).error = none) :
    ∃ acc0 acc1 : GenAcc,
      genSpecial σ.available_voices σ.config.voice_settings synth
        σ.config.intro_text σ.config.intro_voice .intro ⟨[], []⟩ =
          (acc0, none) ∧
      genLines σ.available_voices σ.config.podcasters σ.config.voice_settings
        synth 0 (σ.script.take k) acc0 = (acc1, none) ∧
      (generateAll { σ with
          script := σ.script.take k,
          config := { σ.config with outro_text := "" } }
        synth).session.audio_segments = acc1.segments ∧
      (generateAll { σ with
          script := σ.script.take k,
          config := { σ.config with outro_text := "" } } synth).calls =
        acc1.calls ∧
      acc1.segments.map Prod.fst =
        (if σ.config.intro_text = "" then [] else [Label.intro]) ++
        (List.range' 1 k).map Label.line := by
  obtain ⟨acc0, acc1, acc2, h0, h1, h2, hEq⟩ :=
    generateAll_success_inv _ synth hpre
  dsimp only at h0 h1 h2
  rw [genSpecial_empty_text] at h2
  injection h2 with ha _
  subst ha
  refine ⟨acc0, acc1, h0, h1, ?_, ?_, ?_⟩
  · rw [hEq]
  · rw [hEq]
  · rw [genLines_success_labels _ _ _ _ _ 0 _ _ h1,
      genSpecial_success_segments h0]
    have hlen : (σ.script.take k).length = k := by
      rw [List.length_take]; omega
    rw [hlen]
    simp

theorem generateAll_continue (σ : Session) (synth : Synth) (k : Nat)
    (hk : k ≤ σ.script.length) (acc0 acc1 : GenAcc)
    (h0 : genSpecial σ.available_voices σ.config.voice_settings synth
      σ.config.intro_text σ.config.intro_voice .intro ⟨[], []⟩ =
        (acc0, none))
    (h1 : genLines σ.available_voices σ.config.podcasters
      σ.config.voice_settings synth 0 (σ.script.take k) acc0 =
        (acc1, none)) :
    generateAll σ synth =
      match genLines σ.available_voices σ.config.podcasters
          σ.config.voice_settings synth k (σ.script.drop k) acc1 with
      | (acc2, some e) =>
        ⟨{ σ with audio_segments := acc2.segments }, acc2.calls, some e⟩
      | (acc2, none) =>
        match genSpecial σ.available_voices σ.config.voice_settings synth
            σ.config.outro_text σ.config.outro_voice .outro acc2 with
        | (acc3, e) =>
          ⟨{ σ with audio_segments := acc3.segments }, acc3.calls, e⟩ := by
  have hsplit := genLines_append σ.available_voices σ.config.podcasters
    σ.config.voice_settings synth (σ.script.take k) (σ.script.drop k) 0 acc0
  rw [List.take_append_drop] at hsplit
  simp only [h1] at hsplit
  rw [List.length_take, Nat.min_eq_left hk, Nat.zero_add] at hsplit
  simp only [generateAll, h0]
  rw [hsplit]

/-- Counterexample to claim C1: in `sessionBobOnly` the speaker "Bob" has
no voice assignment, yet "Generate All Audio" issues the intro synthesis
network call (one call is recorded) before failing — and the failure is a
`KeyError` from the `config['podcasters']` lookup, not a validation error
raised before any network call. -/
theorem generateAll_no_validation_gate :
    (generateAll sessionBobOnly synthOk).error =
      some (PipelineError.keyError "Bob") ∧
    (generateAll sessionBobOnly synthOk).calls.length = 1 :=
  ⟨rfl, rfl⟩

/-- Claim C1 (amended): `generateAll` performs no upfront validation of the
speaker-voice map.  When the intro block and the lines before 0-based index
`k` all succeed and the speaker of line `k` has no voice assignment, the
pass raises a `KeyError` for that speaker upon reaching line `k`: by then
the synthesis network calls of the successful prefix (the intro, if
non-empty, and lines `0..k-1`) have already been issued, and the segments
already produced are kept. -/
theorem generateAll_missing_voice_keyError (σ : Session) (synth : Synth)
    (k : Nat) (hk : k < σ.script.length)
    (hpre : (generateAll { σ with
        script := σ.script.take k,
        config := { σ.config with outro_text := "" } } synth).error = none)
    (hmiss : dictLookup σ.config.podcasters (σ.script[k]).speaker = none) :
    (generateAll σ synth).error =
      some (PipelineError.keyError (σ.script[k]).speaker) ∧
    (generateAll σ synth).calls =
      (generateAll { σ with
        script := σ.script.take k,
        config := { σ.config with outro_text := "" } } synth).calls ∧
    (generateAll σ synth).session.audio_segments =
      (generateAll { σ with
        script := σ.script.take k,
        config := { σ.config with outro_text := "" } }
          synth).session.audio_segments := by
  obtain ⟨acc0, acc1, h0, h1, hsegs, hcalls, hlabels⟩ :=
    generateAll_take_inv σ synth k hk.le hpre
  have hcont := generateAll_continue σ synth k hk.le acc0 acc1 h0 h1
  rw [List.drop_eq_getElem_cons hk] at hcont
  simp only [genLines, hmiss] at hcont
  rw [hcont]
  exact ⟨rfl, by rw [hcalls], by rw [hsegs]⟩

/-- Witness for C1 (amended): in `sessionAlexBob` the first line (speaker
"Alex") is assigned and the second (speaker "Bob") is not; the pass fails
with `KeyError "Bob"`, and its calls and segments equal those of the
successful prefix pass on the first line alone. -/
theorem generateAll_missing_voice_keyError_witness :
    (generateAll sessionAlexBob synthOk).error =
      some (PipelineError.keyError "Bob") ∧
    (generateAll sessionAlexBob synthOk).calls =
      (generateAll { sessionAlexBob with
        script := sessionAlexBob.script.take 1,
        config := { sessionAlexBob.config with outro_text := "" } }
          synthOk).calls ∧
    (generateAll sessionAlexBob synthOk).session.audio_segments =
      (generateAll { sessionAlexBob with
        script := sessionAlexBob.script.take 1,
        config := { sessionAlexBob.config with outro_text := "" } }
          synthOk).session.audio_segments :=
  generateAll_missing_voice_keyError sessionAlexBob synthOk 1 (by decide)
    rfl rfl

/-- Claim C6: if, during a "Generate All Audio" pass, every step before the
line at 0-based index `k` succeeds and the synthesis call for line `k`
fails, the pass aborts with the synthesis error while keeping exactly the
segments already produced — the same segments the successful prefix pass
yields: the intro (when the intro text is non-empty) and `Line 1` ..
`Line k`; no segment for line `k` or any later line is added. -/
theorem generateAll_abort_preserves (σ : Session) (synth : Synth) (k : Nat)
    (hk : k < σ.script.length) (vn : String) (vd : VoiceInfo)
    (hpre : (generateAll { σ with
        script := σ.script.take k,
        config := { σ.config with outro_text := "" } } synth).error = none)
    (hvn : dictLookup σ.config.podcasters (σ.script[k]).speaker = some vn)
    (hvd : dictLookup σ.available_voices vn = some vd)
    (hfail : synth (σ.script[k]).text vd.voice_id σ.config.voice_settings =
      none) :
    (generateAll σ synth).error = some PipelineError.synthesisError ∧
    (generateAll σ synth).session.audio_segments =
      (generateAll { σ with
        script := σ.script.take k,
        config := { σ.config with outro_text := "" } }
          synth).session.audio_segments ∧
    (generateAll σ synth).session.audio_segments.map Prod.fst =
      (if σ.config.intro_text = "" then [] else [Label.intro]) ++
      (List.range' 1 k).map Label.line := by
  obtain ⟨acc0, acc1, h0, h1, hsegs, hcalls, hlabels⟩ :=
    generateAll_take_inv σ synth k hk.le hpre
  have hcont := generateAll_continue σ synth k hk.le acc0 acc1 h0 h1
  rw [List.drop_eq_getElem_cons hk] at hcont
  simp only [genLines, hvn, hvd, hfail] at hcont
  rw [hcont]
  refine ⟨rfl, by rw [hsegs], ?_⟩
  simpa using hlabels

/-- Witness for C6: on `sessionFull` with an oracle failing exactly on the
text of line 2 ("Yo"), the pass fails with the synthesis error and keeps
exactly the Intro and Line 1 segments of the successful prefix pass. -/
theorem generateAll_abort_preserves_witness :
    (generateAll sessionFull synthFailYo).error =
      some PipelineError.synthesisError ∧
    (generateAll sessionFull synthFailYo).session.audio_segments =
      (generateAll { sessionFull with
        script := sessionFull.script.take 1,
        config := { sessionFull.config with outro_text := "" } }
          synthFailYo).session.audio_segments ∧
    (generateAll sessionFull synthFailYo).session.audio_segments.map
        Prod.fst =
      (if sessionFull.config.intro_text = "" then [] else [Label.intro]) ++
      (List.range' 1 1).map Label.line :=
  generateAll_abort_preserves sessionFull synthFailYo 1 (by decide)
    "Rachel" ⟨"r1", []⟩ rfl rfl rfl rfl

theorem pyIdx_of_one_le (len n : Nat) (h1 : 1 ≤ n) (h2 : n ≤ len) :
    pyIdx len ((n : Int) - 1) = some (n - 1) := by
  simp only [pyIdx]
  rw [if_neg (by omega : ¬ ((n : Int) - 1 < 0)),
    if_pos (⟨by omega, by omega⟩ : (0 : Int) ≤ (n : Int) - 1 ∧
      (n : Int) - 1 < (len : Int))]
  congr 1
  omega

/-- Claim C4: a successful regeneration of the segment at a valid index `i`
(whose `Line` labels are well formed, as every generated session's are)
replaces only that segment's buffer and the corresponding source text: the
segment count is unchanged, every other segment is untouched, the label at
`i` is unchanged, the voice directory and speaker map are unchanged, and
the source text updated is exactly the intro text for an `Intro` label, the
outro text for an `Outro` label, or the text of script line `n-1` for a
`Line n` label — every other script line and the other config texts being
untouched. -/
theorem regenerate_isolated (σ : Session) (i : Nat) (newText : String)
    (synth : Synth) (σ' : Session)
    (hwf : ∀ n a, σ.audio_segments[i]? = some (Label.line n, a) →
      1 ≤ n ∧ n ≤ σ.script.length)
    (h : regenerate σ i newText synth = (σ', none)) :
    σ'.audio_segments.length = σ.audio_segments.length ∧
    (∀ j, j ≠ i → σ'.audio_segments[j]? = σ.audio_segments[j]?) ∧
    (σ'.audio_segments[i]?).map Prod.fst =
      (σ.audio_segments[i]?).map Prod.fst ∧
    σ'.available_voices = σ.available_voices ∧
    σ'.config.podcasters = σ.config.podcasters ∧
    σ'.config.intro_music = σ.config.intro_music ∧
    (∀ a, σ.audio_segments[i]? = some (Label.intro, a) →
      σ'.config.intro_text = newText ∧
      σ'.config.outro_text = σ.config.outro_text ∧ σ'.script = σ.script) ∧
    (∀ a, σ.audio_segments[i]? = some (Label.outro, a) →
      σ'.config.outro_text = newText ∧
      σ'.config.intro_text = σ.config.intro_text ∧ σ'.script = σ.script) ∧
    (∀ n a, σ.audio_segments[i]? = some (Label.line n, a) →
      ∃ ln, σ.script[n - 1]? = some ln ∧
        σ'.script = σ.script.set (n - 1) { ln with text := newText } ∧
        (∀ j, j ≠ n - 1 → σ'.script[j]? = σ.script[j]?) ∧
        σ'.config.intro_text = σ.config.intro_text ∧
        σ'.config.outro_text = σ.config.outro_text) := by
  rcases hs : σ.audio_segments[i]? with - | ⟨lab, b⟩
  · simp only [regenerate, hs] at h
    simp at h
  · cases lab with
    | intro =>
      simp only [regenerate, hs] at h
      rcases hv : dictLookup σ.available_voices σ.config.intro_voice
        with - | vd
      · simp only [hv] at h; simp at h
      · simp only [hv] at h
        rcases ha : synth newText vd.voice_id σ.config.voice_settings
          with - | a
        · simp only [ha] at h; simp at h
        · simp only [ha] at h
          injection h with h1 _
          subst h1
          refine ⟨by simp, ?_, ?_, rfl, rfl, rfl, ?_, ?_, ?_⟩
          · intro j hj
            exact List.getElem?_set_ne (Ne.symm hj)
          · dsimp only
            rw [List.getElem?_set_self', hs]
            rfl
          · intro a' _
            exact ⟨rfl, rfl, rfl⟩
          · intro a' ha'
            simp at ha'
          · intro n a' ha'
            simp at ha'
    | outro =>
      simp only [regenerate, hs] at h
      rcases hv : dictLookup σ.available_voices σ.config.outro_voice
        with - | vd
      · simp only [hv] at h; simp at h
      · simp only [hv] at h
        rcases ha : synth newText vd.voice_id σ.config.voice_settings
          with - | a
        · simp only [ha] at h; simp at h
        · simp only [ha] at h
          injection h with h1 _
          subst h1
          refine ⟨by simp, ?_, ?_, rfl, rfl, rfl, ?_, ?_, ?_⟩
          · intro j hj
            exact List.getElem?_set_ne (Ne.symm hj)
          · dsimp only
            rw [List.getElem?_set_self', hs]
            rfl
          · intro a' ha'
            simp at ha'
          · intro a' _
            exact ⟨rfl, rfl, rfl⟩
          · intro n a' ha'
            simp at ha'
    | line n =>
      obtain ⟨hn1, hn2⟩ := hwf n b hs
      simp only [regenerate, hs, pyIdx_of_one_le _ _ hn1 hn2] at h
      rcases hl : σ.script[n - 1]? with - | ln0
      · exfalso
        have hlt : n - 1 < σ.script.length := by omega
        have := List.getElem?_eq_getElem hlt
        rw [hl] at this
        simp at this
      · simp only [hl] at h
        rcases hp : dictLookup σ.config.podcasters ln0.speaker with - | vn
        · simp only [hp] at h; simp at h
        · simp only [hp] at h
          rcases hv : dictLookup σ.available_voices vn with - | vd
          · simp only [hv] at h; simp at h
          · simp only [hv] at h
            rcases ha : synth newText vd.voice_id σ.config.voice_settings
              with - | a
            · simp only [ha] at h; simp at h
            · simp only [ha] at h
              injection h with h1 _
              subst h1
              refine ⟨by simp, ?_, ?_, rfl, rfl, rfl, ?_, ?_, ?_⟩
              · intro j hj
                exact List.getElem?_set_ne (Ne.symm hj)
              · dsimp only
                rw [List.getElem?_set_self', hs]
                rfl
              · intro a' ha'
                simp at ha'
              · intro a' ha'
                simp at ha'
              · intro n' a' ha'
                simp only [Option.some.injEq, Prod.mk.injEq,
                  Label.line.injEq] at ha'
                obtain ⟨rfl, rfl⟩ := ha'
                refine ⟨ln0, hl, rfl, ?_, rfl, rfl⟩
                intro j hj
                exact List.getElem?_set_ne (Ne.symm hj)

/-- Witness for C4: regenerating the `Line 2` segment of the generated
session succeeds, keeps the segment count, and leaves the `Line 1` segment
untouched. -/
theorem regenerate_isolated_witness :
    (regenerate sessionGenerated 2 "Next" synthOk).1.audio_segments.length =
      sessionGenerated.audio_segments.length ∧
    (regenerate sessionGenerated 2 "Next" synthOk).1.audio_segments[1]? =
      sessionGenerated.audio_segments[1]? := by
  have hwf : ∀ n a,
      sessionGenerated.audio_segments[2]? = some (Label.line n, a) →
      1 ≤ n ∧ n ≤ sessionGenerated.script.length := by
    intro n a hna
    have hv : some (Label.line 2, ([12] : Audio)) =
        some (Label.line n, a) := hna
    simp only [Option.some.injEq, Prod.mk.injEq, Label.line.injEq] at hv
    obtain ⟨rfl, -⟩ := hv
    exact ⟨by decide, by decide⟩
  have heq : regenerate sessionGenerated 2 "Next" synthOk =
      ((regenerate sessionGenerated 2 "Next" synthOk).1, none) := rfl
  have h := regenerate_isolated sessionGenerated 2 "Next" synthOk
    (regenerate sessionGenerated 2 "Next" synthOk).1 hwf heq
  exact ⟨h.1, h.2.1 1 (by decide)⟩
